import Mathlib

set_option maxRecDepth 8000

unseal Rat.add Rat.mul Rat.sub Rat.inv Rat.ofScientific

/-!
Shallow embedding of `excel_report_generator.py` (class `ExcelReportGenerator`)
from the repository `automated-excel-reports`.

Conventions of the embedding:
* pandas/numpy numeric values are modelled as exact rationals (`ℚ`); Python
  ints as `Int`.  Binary floating point is not modelled; every numeric claim
  settled here only involves values that are exact at the precision at stake.
* Python exceptions are modelled with `Except PyErr`; a `KeyError` carries the
  missing key's name, as in Python.
* External effects (filesystem, `datetime.now()`, `np.random`) are parameters:
  the timestamp of the output filename is an explicit argument, and of
  `generate_sample_data` only the deterministic part (which column schema the
  `if report_type == "daily"` branch selects) is modelled.
* openpyxl cell styling is modelled as explicit state passing: a `StyleMap`
  (list of cell-coordinate/style writes, most recent first) threaded through
  the styling loops, which are translated one loop iteration per list step.
* openpyxl's range-string validation is modelled (`rangeBoundaries`): the
  mixed ranges `_apply_header_style` subscripts (`'A:<letter>1'`) raise
  `ValueError`, so data-sheet creation fails on every input and report
  generation never completes; the steps after that call are still translated
  in source order.
-/

/-- Python exception kinds raised by the translated code paths. -/
inductive PyErr where
  | keyError : String → PyErr
  | indexError : PyErr
  | typeError : PyErr
  | valueError : PyErr
deriving DecidableEq, Repr

/-- A scalar cell value.  `vNone` is Python's `None` (an openpyxl empty cell
reads back as `None`); `vBad` stands for a value whose `str()` raises, used by
the `try/except` in the column-width loop. -/
inductive Value where
  | vInt : Int → Value
  | vStr : String → Value
  | vRat : ℚ → Value
  | vNone : Value
  | vBad : Value
deriving DecidableEq, Repr

/-- Python `str()` of a cell value; `none` models `str` raising (only for
`vBad`).  The textual rendering of a rational stands in for Python's float
`repr`; no claim depends on the exact characters of a float rendering. -/
def pyStr : Value → Option String
  | .vInt n => some (toString n)
  | .vStr s => some s
  | .vRat q => some (toString q)
  | .vNone => some "None"
  | .vBad => none

/-- Numeric view of a value, used by pandas `sum` / `mean` / `idxmax`. -/
def toRatValue : Value → Option ℚ
  | .vInt n => some (n : ℚ)
  | .vRat q => some q
  | _ => none

/-- Python `s[i]` on a string: negative indices wrap once from the end, out of
range raises `IndexError` (source line 230 `"ABC..."[len(data.columns)-1]`). -/
def pyStrIndex (s : String) (i : Int) : Except PyErr Char :=
  let n : Int := (s.length : Int)
  if 0 ≤ i ∧ i < n then .ok (s.toList.getD i.toNat ' ')
  else if -n ≤ i ∧ i < 0 then .ok (s.toList.getD (i + n).toNat ' ')
  else .error .indexError

/-- Helper of `pyTitle`: Python `str.title()` uppercases a letter not preceded
by a cased character and lowercases the others (ASCII inputs only here). -/
def pyTitleAux : Bool → List Char → List Char
  | _, [] => []
  | prevCased, ch :: rest =>
    if ch.isAlpha then
      (if prevCased then ch.toLower else ch.toUpper) :: pyTitleAux true rest
    else
      ch :: pyTitleAux false rest

/-- Python `str.title()` (used at source lines 162 and 268). -/
def pyTitle (s : String) : String := ⟨pyTitleAux false s.toList⟩

/-- Character-wise helper of `pyReplaceUnderscore`. -/
def replaceChar (a b : Char) : List Char → List Char
  | [] => []
  | c :: cs => (if c = a then b else c) :: replaceChar a b cs

/-- Python `sheet_name.replace('_', ' ')` (source line 268). -/
def pyReplaceUnderscore (s : String) : String := ⟨replaceChar '_' ' ' s.toList⟩

/-- Round a rational to the nearest integer, ties to even — the rounding of
Python's fixed-point `format` at the digit boundary. -/
def roundHalfEven (q : ℚ) : Int :=
  let f : Int := Rat.floor q
  let r : ℚ := q - (f : ℚ)
  if r < 1/2 then f
  else if 1/2 < r then f + 1
  else if f % 2 = 0 then f else f + 1

/-- Groups a reversed digit string into blocks of three with commas. -/
def group3 : List Char → List Char
  | a :: b :: c :: d :: rest => a :: b :: c :: ',' :: group3 (d :: rest)
  | l => l

/-- Decimal digits of a natural number with thousands separators. -/
def commaGroup (n : Nat) : String := ⟨(group3 (toString n).toList.reverse).reverse⟩

/-- Two-digit zero padding for the cents part. -/
def pad2 (n : Nat) : String := if n < 10 then "0" ++ toString n else toString n

/-- Python `f"{v:,.2f}"`: thousands separators, two decimals (source lines
186-187 and 198, where it is prefixed with a dollar sign). -/
def formatCommaFixed2 (q : ℚ) : String :=
  let c : Int := roundHalfEven (q * 100)
  let sign := if c < 0 then "-" else ""
  let a := c.natAbs
  sign ++ commaGroup (a / 100) ++ "." ++ pad2 (a % 100)

/-- Python `f"{v:.1%}"`: value times one hundred, one decimal place, percent
sign, no grouping (source line 199). -/
def formatPercent1 (q : ℚ) : String :=
  let t : Int := roundHalfEven (q * 1000)
  let sign := if t < 0 then "-" else ""
  let a := t.natAbs
  sign ++ toString (a / 10) ++ "." ++ toString (a % 10) ++ "%"

/-- A pandas DataFrame: ordered column names and rows of cell values.  Rows
are rectangular in every DataFrame pandas builds; a short row reads as `None`
(as an openpyxl cell would). -/
structure DataFrame where
  columns : List String
  rows : List (List Value)
deriving DecidableEq, Repr

/-- The dataset bundle: the insertion-ordered dict passed to
`generate_report` / `create_summary_sheet`. -/
abbrev Bundle := List (String × DataFrame)

/-- Python `data['name']` on the bundle dict: `KeyError` when absent
(source lines 172-173). -/
def bundleGet (b : Bundle) (name : String) : Except PyErr DataFrame :=
  match b.find? (fun p => p.1 = name) with
  | some p => .ok p.2
  | none => .error (.keyError name)

/-- pandas `df['name']`: the column's values top to bottom, `KeyError` when
the column is absent. -/
def dfColumn (df : DataFrame) (name : String) : Except PyErr (List Value) :=
  match df.columns.findIdx? (fun c => c = name) with
  | some j => .ok (df.rows.map (fun row => row.getD j Value.vNone))
  | none => .error (.keyError name)

/-- pandas `series.sum()` over a numeric column; a non-numeric value in a
column being summed is modelled as `TypeError` (string-concatenating sums of
object columns are outside every claim). -/
def pySum (vals : List Value) : Except PyErr ℚ :=
  match vals.mapM toRatValue with
  | some qs => .ok (qs.foldl (· + ·) 0)
  | none => .error .typeError

/-- pandas `series.mean()` = sum divided by length.  The empty case (pandas
`NaN`) is outside every claim; Lean's division by zero yields 0 there. -/
def pyMean (vals : List Value) : Except PyErr ℚ := do
  let s ← pySum vals
  .ok (s / (vals.length : ℚ))

/-- pandas `series.idxmax()` over labelled sums (source line 182): the label
of the first maximal value; `ValueError` on an empty series. -/
def idxmaxPairs : List (String × ℚ) → Except PyErr String
  | [] => .error .valueError
  | (l, v) :: rest =>
    .ok ((rest.foldl (fun best p => if p.2 > best.2 then p else best) (l, v)).1)

/-- Position scan of `idxmaxIndex`. -/
def idxmaxFrom : Nat → Nat → ℚ → List ℚ → Nat
  | _, bi, _, [] => bi
  | i, bi, bv, v :: rest =>
    if v > bv then idxmaxFrom (i + 1) i v rest else idxmaxFrom (i + 1) bi bv rest

/-- pandas `series.idxmax()` as a row position (source line 201): first
maximum wins; `ValueError` on an empty series. -/
def idxmaxIndex : List ℚ → Except PyErr Nat
  | [] => .error .valueError
  | v :: rest => .ok (idxmaxFrom 1 0 v rest)

/-- Python `len(customer_data[customer_data['Category'] == 'Premium'])`
(source line 190): rows whose `Category` cell equals the given string. -/
def countEq (vals : List Value) (s : String) : Nat :=
  vals.countP (fun v => v = Value.vStr s)

/-- Numeric coercion of a whole series, as pandas `idxmax` needs it. -/
def seriesToRats (vals : List Value) : Except PyErr (List ℚ) :=
  match vals.mapM toRatValue with
  | some qs => .ok qs
  | none => .error .typeError

/-- pandas `.loc[idx, col]` row access on an already-extracted column. -/
def locGet (vals : List Value) (i : Nat) : Except PyErr Value :=
  match vals.get? i with
  | some v => .ok v
  | none => .error .indexError

/-- Metric computation of `create_summary_sheet`, source lines 179-202: the
`if report_type == "daily"` branch and its `else  # weekly` branch, evaluated
in source order so that the first missing column raises first.  (Source line
182 looks the three product columns up as one sub-frame; here they are looked
up in order, which raises on the first missing one.) -/
def computeMetrics (sales_data customer_data : DataFrame) (report_type : String) :
    Except PyErr (List (String × Value)) :=
  if report_type = "daily" then do
    let revCol ← dfColumn sales_data "Total_Revenue"
    let total_revenue ← pySum revCol
    let avg_daily_revenue ← pyMean revCol
    let pa ← dfColumn sales_data "Product_A"
    let sa ← pySum pa
    let pb ← dfColumn sales_data "Product_B"
    let sb ← pySum pb
    let pc ← dfColumn sales_data "Product_C"
    let sc ← pySum pc
    let top_product ← idxmaxPairs [("Product_A", sa), ("Product_B", sb), ("Product_C", sc)]
    let total_customers := customer_data.rows.length
    let categoryCol ← dfColumn customer_data "Category"
    .ok [("Total Revenue", .vStr ("$" ++ formatCommaFixed2 total_revenue)),
         ("Average Daily Revenue", .vStr ("$" ++ formatCommaFixed2 avg_daily_revenue)),
         ("Top Product", .vStr top_product),
         ("Total Customers", .vInt (total_customers : Int)),
         ("Premium Customers", .vInt ((countEq categoryCol "Premium") : Int))]
  else do
    let actualCol ← dfColumn sales_data "Actual_Sales"
    let total_sales ← pySum actualCol
    let retCol ← dfColumn sales_data "Customer_Retention"
    let avg_performance ← pyMean retCol
    let newCol ← dfColumn sales_data "New_Customers"
    let total_new_customers ← pySum newCol
    let perfCol ← dfColumn customer_data "Performance_Score"
    let perfVals ← seriesToRats perfCol
    let bestIdx ← idxmaxIndex perfVals
    let deptCol ← dfColumn customer_data "Department"
    let best ← locGet deptCol bestIdx
    .ok [("Total Sales", .vStr ("$" ++ formatCommaFixed2 total_sales)),
         ("Average Retention Rate", .vStr (formatPercent1 avg_performance)),
         ("Total New Customers", .vRat total_new_customers),
         ("Best Department", best)]

/-- Configuration fields the translated core reads: `company_name`,
`output_directory`, and the nested `colors.header` (flattened here). -/
structure Config where
  company_name : String
  output_directory : String
  header_color : String
deriving DecidableEq, Repr

/-- The visual state of one openpyxl cell after styling: fill color, thin
border on all sides, centered alignment, bold flag, font color, font size. -/
structure CellStyle where
  fill : Option String
  border : Bool
  centered : Bool
  bold : Bool
  fontColor : Option String
  fontSize : Option Nat
deriving DecidableEq, Repr

/-- A freshly created cell: no fill, no border, default alignment and font. -/
def defaultStyle : CellStyle := ⟨none, false, false, false, none, none⟩

/-- The style `_apply_header_style` writes to each header cell (source lines
102-116): solid fill of the configured header color, bold white 12pt font,
centered, thin border. -/
def headerCellStyle (color : String) : CellStyle :=
  ⟨some color, true, true, true, some "FFFFFF", some 12⟩

/-- The style one iteration of `_apply_data_formatting` leaves on cell
`(row, col)` of a fresh sheet (source lines 130-138): thin border, centered,
and the light gray fill exactly when `row % 2 == 0`. -/
def dataCellStyle (row : Nat) : CellStyle :=
  ⟨if row % 2 = 0 then some "F2F2F2" else none, true, true, false, none, none⟩

/-- Style writes on a sheet, most recent first, keyed by (row, column),
both 1-based as in openpyxl. -/
abbrev StyleMap := List ((Nat × Nat) × CellStyle)

/-- Reads a cell's style: the most recent write to that coordinate, or the
fresh-cell default. -/
def getStyle (m : StyleMap) (p : Nat × Nat) : CellStyle :=
  match m with
  | [] => defaultStyle
  | (q, s) :: rest => if q = p then s else getStyle rest p

/-- The `for cell in worksheet[...]` loop of `_apply_header_style`, one
column per step along the given column list. -/
def writeHeaderCells (color : String) (rowNum : Nat) : List Nat → StyleMap → StyleMap
  | [], m => m
  | c :: cs, m => writeHeaderCells color rowNum cs (((rowNum, c), headerCellStyle color) :: m)

/-- Python `range(a, b)` as a list. -/
def pyRange (a b : Nat) : List Nat := List.range' a (b - a)

/-- Splits an openpyxl range string at its first colon. -/
def splitColon : List Char → List Char × Option (List Char)
  | [] => ([], none)
  | c :: rest =>
    if c = ':' then ([], some rest)
    else
      let p := splitColon rest
      (c :: p.1, p.2)

/-- Shape of one bound of an openpyxl range string, as the coordinate regex
classifies it: column letters only, row digits only, a full cell reference,
or not a coordinate at all. -/
inductive BoundKind where
  | colB : Nat → BoundKind
  | rowB : Nat → BoundKind
  | cellB : Nat → Nat → BoundKind
  | badB : BoundKind
deriving DecidableEq, Repr

/-- Column index of a letter run, 1-based base-26 as openpyxl counts. -/
def colIndexOf (letters : List Char) : Nat :=
  letters.foldl (fun a c => a * 26 + (c.toNat - 'A'.toNat + 1)) 0

/-- Numeric value of a digit run. -/
def digitsVal (digits : List Char) : Nat :=
  digits.foldl (fun a c => a * 10 + (c.toNat - '0'.toNat)) 0

/-- Classifies one bound of a range string: an optional run of letters
followed by an optional run of digits; anything else fails openpyxl's
coordinate pattern. -/
def classifyBound (s : List Char) : BoundKind :=
  let letters := s.takeWhile Char.isAlpha
  let rest := s.dropWhile Char.isAlpha
  if rest.all Char.isDigit then
    if letters.isEmpty then
      if rest.isEmpty then .badB else .rowB (digitsVal rest)
    else
      if rest.isEmpty then .colB (colIndexOf letters)
      else .cellB (colIndexOf letters) (digitsVal rest)
  else .badB

/-- openpyxl `range_boundaries`: a two-bound range is valid only when both
bounds are full cells, both are column-only, or both are row-only; a mixed
form such as "A:E1" raises `ValueError` ("... is not a valid coordinate or
range").  The result is (min col?, min row?, max col?, max row?). -/
def rangeBoundaries (s : String) :
    Except PyErr (Option Nat × Option Nat × Option Nat × Option Nat) :=
  match splitColon s.toList with
  | (p1, none) =>
    match classifyBound p1 with
    | .cellB c r => .ok (some c, some r, some c, some r)
    | .colB c => .ok (some c, none, some c, none)
    | .rowB r => .ok (none, some r, none, some r)
    | .badB => .error .valueError
  | (p1, some p2) =>
    match classifyBound p1, classifyBound p2 with
    | .cellB c1 r1, .cellB c2 r2 => .ok (some c1, some r1, some c2, some r2)
    | .colB c1, .colB c2 => .ok (some c1, none, some c2, none)
    | .rowB r1, .rowB r2 => .ok (none, some r1, none, some r2)
    | _, _ => .error .valueError

/-- The nested cell loop of `_apply_header_style` over a fully-bounded
rectangle. -/
def writeHeaderRect (color : String) : List Nat → List Nat → StyleMap → StyleMap
  | [], _, m => m
  | r :: rs, cols, m => writeHeaderRect color rs cols (writeHeaderCells color r cols m)

/-- `_apply_header_style(ws, row_num, col_range)` (source lines 100-116):
subscripts `worksheet[f'{col_range}{row_num}']`.  In this repository
`col_range` is always `'A:<letter>'` (source line 230), so the subscript is a
mixed range such as `'A:E1'`, which openpyxl's `range_boundaries` rejects
with `ValueError` before any cell is styled.  A fully-bounded rectangle —
never produced by this repository's only call site — styles its cells with
the header style; a column-only or row-only range would make openpyxl yield
column/row tuples on which the styling loop fails, also unreachable here and
left unstyled. -/
def apply_header_style (m : StyleMap) (color : String) (rowNum : Nat) (colRange : String) :
    Except PyErr StyleMap :=
  match rangeBoundaries (colRange ++ toString rowNum) with
  | .error e => .error e
  | .ok (some minC, some minR, some maxC, some maxR) =>
    .ok (writeHeaderRect color (pyRange minR (maxR + 1)) (pyRange minC (maxC + 1)) m)
  | .ok _ => .ok m

/-- Inner `for col in range(start_col, end_col + 1)` loop of
`_apply_data_formatting` at a fixed row. -/
def writeDataRow (r : Nat) : List Nat → StyleMap → StyleMap
  | [], m => m
  | c :: cs, m => writeDataRow r cs (((r, c), dataCellStyle r) :: m)

/-- Outer `for row in range(start_row, end_row + 1)` loop of
`_apply_data_formatting`. -/
def writeDataRegion : List Nat → List Nat → StyleMap → StyleMap
  | [], _, m => m
  | r :: rs, cols, m => writeDataRegion rs cols (writeDataRow r cols m)

/-- `_apply_data_formatting(ws, start_row, end_row, start_col, end_col)`
(source lines 118-138): nested loops over `range(start_row, end_row + 1)` and
`range(start_col, end_col + 1)`. -/
def apply_data_formatting (m : StyleMap) (startRow endRow startCol endCol : Nat) : StyleMap :=
  writeDataRegion (pyRange startRow (endRow + 1)) (pyRange startCol (endCol + 1)) m

/-- One iteration of the column-width loop body (source lines 238-242): the
`try` block bumps the running maximum when `str(cell.value)` is longer, and
the bare `except` skips values whose `str` raises. -/
def cellLen (v : Value) (acc : Nat) : Nat :=
  match pyStr v with
  | some s => if s.length > acc then s.length else acc
  | none => acc

/-- The `max_length` scan over one sheet column `j` (0-based), header cell
included since the header is the first appended row. -/
def columnMaxLen (grid : List (List Value)) (j : Nat) : Nat :=
  grid.foldl (fun acc row => cellLen (row.getD j Value.vNone) acc) 0

/-- `adjusted_width = min(max_length + 2, 50)` (source line 243). -/
def columnWidth (grid : List (List Value)) (j : Nat) : Nat :=
  min (columnMaxLen grid j + 2) 50

/-- A data sheet after `create_data_sheet`: its tab name, the appended grid
(header row first, then the data rows, as `dataframe_to_rows` yields them),
the styling writes, and the per-column widths in column order. -/
structure Worksheet where
  name : String
  rows : List (List Value)
  styles : StyleMap
  widths : List Nat
deriving DecidableEq, Repr

/-- `create_data_sheet(data, sheet_name)` (source lines 221-244): append the
header row and all data rows, then call
`_apply_header_style(ws, 1, 'A:' + "ABCDEFGHIJKLMNOPQRSTUVWXYZ"[len(data.columns)-1])`.
The string index raises `IndexError` past twenty-six columns and wraps to
`'Z'` at index -1; for zero to twenty-six columns the header-style call then
raises `ValueError` at its malformed `'A:<letter>1'` subscript, so this
function fails on every input before the data-region formatting (line 231)
and the width loop (lines 234-244) run.  Those later steps are translated
nonetheless, in source order. -/
def create_data_sheet (config : Config) (data : DataFrame) (sheet_name : String) :
    Except PyErr Worksheet := do
  let ncols := data.columns.length
  let grid := (data.columns.map Value.vStr) :: data.rows
  let letter ← pyStrIndex "ABCDEFGHIJKLMNOPQRSTUVWXYZ" ((ncols : Int) - 1)
  let styles ← apply_header_style [] config.header_color 1 ("A:" ++ String.mk [letter])
  let styles := apply_data_formatting styles 2 (data.rows.length + 1) 1 ncols
  let widths := (List.range ncols).map (fun j => columnWidth grid j)
  .ok ⟨sheet_name, grid, styles, widths⟩

/-- The Summary sheet as `create_summary_sheet` builds it: the tab name
("Summary"), the A1 title string, and the label/value metric rows.  The
purely visual parts (merged title range, fonts, the timestamp line, the
metric borders) carry no claim and are not recorded. -/
structure SummarySheet where
  name : String
  title : String
  metrics : List (String × Value)
deriving DecidableEq, Repr

/-- `create_summary_sheet(data, report_type)` (source lines 156-219): writes
the title `f"{company_name} - {report_type.title()} Report Summary"`, looks
up `data['sales_data']` and `data['customer_data']` (KeyError when absent),
then computes the report-type metrics. -/
def create_summary_sheet (config : Config) (data : Bundle) (report_type : String) :
    Except PyErr SummarySheet := do
  let title := config.company_name ++ " - " ++ pyTitle report_type ++ " Report Summary"
  let sales_data ← bundleGet data "sales_data"
  let customer_data ← bundleGet data "customer_data"
  let metrics ← computeMetrics sales_data customer_data report_type
  .ok ⟨"Summary", title, metrics⟩

/-- A sheet of the assembled workbook. -/
inductive Sheet where
  | summary : SummarySheet → Sheet
  | data : Worksheet → Sheet
deriving DecidableEq, Repr

/-- The tab name of a workbook sheet. -/
def sheetName : Sheet → String
  | .summary s => s.name
  | .data ws => ws.name

/-- The finished report: the workbook's sheets in order plus the path the
file is saved under. -/
structure PyReport where
  sheets : List Sheet
  filepath : String
deriving DecidableEq, Repr

/-- The `for sheet_name, df in data.items()` loop of `generate_report`
(source lines 267-269): one data sheet per dataset, named
`sheet_name.replace('_', ' ').title()`, in bundle order. -/
def createDataSheets (config : Config) : Bundle → Except PyErr (List Worksheet)
  | [] => .ok []
  | (sheet_name, df) :: rest => do
    let ws ← create_data_sheet config df (pyTitle (pyReplaceUnderscore sheet_name))
    let others ← createDataSheets config rest
    .ok (ws :: others)

/-- `generate_report(report_type, data)` (source lines 246-279) on a supplied
dataset bundle: build the Summary sheet, then the per-dataset sheets, then
save under `f"{report_type}_report_{timestamp}.xlsx"` in the output
directory.  The `data is None` sample branch and `os.makedirs` are the
external collaborators; the timestamp is a parameter. -/
def generate_report (config : Config) (report_type : String) (data : Bundle)
    (timestamp : String) : Except PyErr PyReport := do
  let summary ← create_summary_sheet config data report_type
  let dataSheets ← createDataSheets config data
  .ok ⟨Sheet.summary summary :: dataSheets.map Sheet.data,
       config.output_directory ++ "/" ++ report_type ++ "_report_" ++ timestamp ++ ".xlsx"⟩

/-- The deterministic part of `generate_sample_data` (source lines 48-98):
which dataset keys and column schemas the `if report_type == "daily"` branch
versus its `else  # weekly` branch selects.  The row values (np.random) and
the date ranges (datetime.now) are external randomness and are not modelled. -/
def generate_sample_data_columns (report_type : String) : List (String × List String) :=
  if report_type = "daily" then
    [("sales_data", ["Date", "Product_A", "Product_B", "Product_C", "Total_Revenue"]),
     ("customer_data", ["Customer_ID", "Customer_Name", "Total_Orders", "Total_Spent", "Category"])]
  else
    [("sales_data", ["Week", "Sales_Target", "Actual_Sales", "New_Customers", "Customer_Retention"]),
     ("customer_data", ["Department", "Budget", "Actual_Spend", "Performance_Score", "Team_Size"])]

/-- Sheet names of a finished report, in workbook order. -/
def reportSheetNames (r : PyReport) : List String := r.sheets.map sheetName

/-- Metrics of a summary-sheet computation, empty on failure; lets a claim
about "the computed summary metrics" be stated without binding the sheet. -/
def metricsOf (e : Except PyErr SummarySheet) : List (String × Value) :=
  match e with
  | .ok s => s.metrics
  | .error _ => []

/-- Decidable equality of fallible results, for concrete evaluation. -/
instance {e a : Type} [DecidableEq e] [DecidableEq a] : DecidableEq (Except e a) := fun x y =>
  match x, y with
  | .ok v, .ok w => decidable_of_iff (v = w) (by simp)
  | .error v, .error w => decidable_of_iff (v = w) (by simp)
  | .ok _, .error _ => .isFalse (by simp)
  | .error _, .ok _ => .isFalse (by simp)

/-- Stated from the spec's words for the width rule: the maximum, over the
column's cells with the header included, of the character length of the
string representation, a value whose `str` raises contributing zero. -/
def specColumnMaxLen (grid : List (List Value)) (j : Nat) : Nat :=
  (grid.map (fun row => ((pyStr (row.getD j Value.vNone)).map String.length).getD 0)).foldl
    max 0

/-- Demonstration configuration used by the concrete witnesses. -/
def demoConfig : Config := ⟨"Your Company Name", "reports", "366092"⟩

/-- A small daily-shaped sales dataset. -/
def demoSales : DataFrame :=
  ⟨["Total_Revenue", "Product_A", "Product_B", "Product_C"],
   [[.vInt 3000, .vInt 5, .vInt 4, .vInt 3]]⟩

/-- A small customer dataset with one Premium row. -/
def demoCustomer : DataFrame := ⟨["Category"], [[.vStr "Premium"]]⟩

/-- A valid daily-shaped bundle. -/
def demoBundle : Bundle := [("sales_data", demoSales), ("customer_data", demoCustomer)]

/-- Styles of a data-sheet computation, empty on failure; lets cell-style
claims be stated without binding the worksheet. -/
def stylesOf (e : Except PyErr Worksheet) : StyleMap :=
  match e with
  | .ok ws => ws.styles
  | .error _ => []

/-- Appended rows of a data-sheet computation, empty on failure. -/
def rowsOf (e : Except PyErr Worksheet) : List (List Value) :=
  match e with
  | .ok ws => ws.rows
  | .error _ => []

/-- Column widths of a data-sheet computation, empty on failure. -/
def widthsOf (e : Except PyErr Worksheet) : List Nat :=
  match e with
  | .ok ws => ws.widths
  | .error _ => []

/-- A one-column sales dataset with two data rows. -/
def demoSales2 : DataFrame := ⟨["Total_Revenue"], [[.vInt 1000], [.vInt 2000]]⟩

/-- A dataset with no columns at all. -/
def dfZeroCols : DataFrame := ⟨[], []⟩

/-- A two-column dataset with no data rows. -/
def dfHeaderOnly : DataFrame := ⟨["A_Col", "B_Col"], []⟩

/-- A dataset with twenty-seven columns. -/
def df27 : DataFrame := ⟨List.replicate 27 "Col", []⟩

/-- A valid daily bundle that also carries a zero-column dataset. -/
def bundleWithEmpty : Bundle :=
  [("sales_data", demoSales), ("customer_data", demoCustomer), ("extra_block", dfZeroCols)]

/-- A bundle with no sales dataset. -/
def bundleNoSales : Bundle := [("customer_data", demoCustomer)]

/-- A sales dataset without the revenue column. -/
def demoSalesNoRevenue : DataFrame := ⟨["Revenue"], [[.vInt 5]]⟩

/-- A daily bundle whose sales dataset lacks the revenue column. -/
def bundleNoRevenue : Bundle :=
  [("sales_data", demoSalesNoRevenue), ("customer_data", demoCustomer)]

/-- Thirty-one sales rows whose revenue column sums to 93000. -/
def sales31 : DataFrame :=
  ⟨["Total_Revenue", "Product_A", "Product_B", "Product_C"],
   List.replicate 31 [.vInt 3000, .vInt 5, .vInt 4, .vInt 3]⟩

/-- One hundred customer rows, forty of them Premium. -/
def customer100 : DataFrame :=
  ⟨["Category"],
   List.replicate 40 [Value.vStr "Premium"] ++ List.replicate 60 [Value.vStr "Standard"]⟩

/-- The daily scenario bundle of the spec. -/
def bundleDaily31 : Bundle := [("sales_data", sales31), ("customer_data", customer100)]

/-- A weekly-shaped sales dataset whose retention values average 33/40. -/
def weeklySales : DataFrame :=
  ⟨["Actual_Sales", "Customer_Retention", "New_Customers"],
   [[.vInt 100, .vRat (4/5), .vInt 10], [.vInt 200, .vRat (17/20), .vInt 20]]⟩

/-- A weekly-shaped customer dataset with department scores. -/
def weeklyCustomer : DataFrame :=
  ⟨["Department", "Performance_Score"],
   [[.vStr "Sales", .vRat (9/10)], [.vStr "Marketing", .vRat (3/5)]]⟩

/-- A valid weekly-shaped bundle. -/
def weeklyBundle : Bundle := [("sales_data", weeklySales), ("customer_data", weeklyCustomer)]

/-- A daily bundle with the sales dataset only. -/
def bundleOnlySales : Bundle := [("sales_data", demoSales)]

/-- A sales dataset with revenue and Product_A but no Product_B. -/
def salesNoProductB : DataFrame :=
  ⟨["Total_Revenue", "Product_A"], [[.vInt 3000, .vInt 5]]⟩

/-- A daily bundle whose sales dataset lacks Product_B. -/
def bundleNoProductB : Bundle :=
  [("sales_data", salesNoProductB), ("customer_data", demoCustomer)]

/-- A weekly sales dataset without the retention column. -/
def weeklySalesNoRet : DataFrame := ⟨["Actual_Sales"], [[.vInt 100]]⟩

/-- A weekly bundle whose sales dataset lacks Customer_Retention. -/
def bundleNoRetention : Bundle :=
  [("sales_data", weeklySalesNoRet), ("customer_data", weeklyCustomer)]

/-- A weekly customer dataset without the department column. -/
def weeklyCustomerNoDept : DataFrame := ⟨["Performance_Score"], [[.vRat (9/10)]]⟩

/-- A weekly bundle whose customer dataset lacks Department. -/
def bundleNoDept : Bundle :=
  [("sales_data", weeklySales), ("customer_data", weeklyCustomerNoDept)]

/-- Python `range` membership. -/
theorem mem_pyRange {m a b : Nat} : m ∈ pyRange a b ↔ a ≤ m ∧ m < b := by
  simp only [pyRange, List.mem_range'_1]
  omega

/-- Reading a style map after the inner column loop of
`_apply_data_formatting`: cells of the visited row and columns carry the data
style, every other cell is untouched. -/
theorem getStyle_writeDataRow (r : Nat) (cols : List Nat) (m : StyleMap) (p : Nat × Nat) :
    getStyle (writeDataRow r cols m) p =
      if p.1 = r ∧ p.2 ∈ cols then dataCellStyle r else getStyle m p := by
  induction cols generalizing m with
  | nil => simp [writeDataRow]
  | cons c cs ih =>
    rcases p with ⟨pr, pc⟩
    simp only [writeDataRow]
    rw [ih]
    simp only [getStyle, List.mem_cons]
    by_cases h1 : pr = r <;> by_cases h2 : pc ∈ cs <;> by_cases h3 : pc = c <;>
      simp [h1, h2, h3, Prod.ext_iff] <;> (intros; omega)

/-- Reading a style map after the nested loops of `_apply_data_formatting`:
cells in the visited row/column rectangle carry the data style of their row,
every other cell is untouched. -/
theorem getStyle_writeDataRegion (rs cols : List Nat) (m : StyleMap) (p : Nat × Nat) :
    getStyle (writeDataRegion rs cols m) p =
      if p.1 ∈ rs ∧ p.2 ∈ cols then dataCellStyle p.1 else getStyle m p := by
  induction rs generalizing m with
  | nil => simp [writeDataRegion]
  | cons r rs ih =>
    simp only [writeDataRegion]
    rw [ih, getStyle_writeDataRow]
    by_cases h1 : p.1 ∈ rs <;> by_cases h2 : p.2 ∈ cols <;> by_cases h3 : p.1 = r <;>
      simp [h1, h2, h3, List.mem_cons]

/-- Reading a style map after the `_apply_header_style` loop: the visited
cells of the header row carry the header style, every other cell is
untouched. -/
theorem getStyle_writeHeaderCells (color : String) (rn : Nat) (cols : List Nat)
    (m : StyleMap) (p : Nat × Nat) :
    getStyle (writeHeaderCells color rn cols m) p =
      if p.1 = rn ∧ p.2 ∈ cols then headerCellStyle color else getStyle m p := by
  induction cols generalizing m with
  | nil => simp [writeHeaderCells]
  | cons c cs ih =>
    rcases p with ⟨pr, pc⟩
    simp only [writeHeaderCells]
    rw [ih]
    simp only [getStyle, List.mem_cons]
    by_cases h1 : pr = rn <;> by_cases h2 : pc ∈ cs <;> by_cases h3 : pc = c <;>
      simp [h1, h2, h3, Prod.ext_iff] <;> (intros; omega)

/-- Sequencing a successful step. -/
theorem exceptBindOk {ε α β : Type} (a : α) (f : α → Except ε β) :
    (Except.ok a >>= f) = f a := rfl

/-- Sequencing a failed step propagates the error. -/
theorem exceptBindError {ε α β : Type} (e : ε) (f : α → Except ε β) :
    ((Except.error e : Except ε α) >>= f) = Except.error e := rfl

/-- One width-loop iteration is a `max` with the cell's contribution. -/
theorem cellLen_eq_max (v : Value) (acc : Nat) :
    cellLen v acc = max acc (((pyStr v).map String.length).getD 0) := by
  cases h : pyStr v with
  | some s =>
    simp only [cellLen, h, Option.map_some', Option.getD_some]
    split <;> omega
  | none => simp [cellLen, h]

/-- The `max_length` scan of the width loop computes the spec's maximum. -/
theorem columnMaxLen_eq_spec (grid : List (List Value)) (j : Nat) :
    columnMaxLen grid j = specColumnMaxLen grid j := by
  unfold columnMaxLen specColumnMaxLen
  rw [List.foldl_map]
  congr 1
  funext acc row
  exact cellLen_eq_max _ _

/-- Successful `create_summary_sheet` pins down the sheet's tab name and
title and threads the metric computation through. -/
theorem create_summary_sheet_ok (config : Config) (b : Bundle) (rt : String)
    (s : SummarySheet) (h : create_summary_sheet config b rt = .ok s) :
    s.name = "Summary" ∧
    s.title = config.company_name ++ " - " ++ pyTitle rt ++ " Report Summary" ∧
    ∃ sd cd, bundleGet b "sales_data" = .ok sd ∧ bundleGet b "customer_data" = .ok cd ∧
      computeMetrics sd cd rt = .ok s.metrics := by
  simp only [create_summary_sheet] at h
  cases hsd : bundleGet b "sales_data" with
  | error e => rw [hsd, exceptBindError] at h; exact absurd h (by simp)
  | ok sd =>
    rw [hsd, exceptBindOk] at h
    cases hcd : bundleGet b "customer_data" with
    | error e => rw [hcd, exceptBindError] at h; exact absurd h (by simp)
    | ok cd =>
      rw [hcd, exceptBindOk] at h
      cases hm : computeMetrics sd cd rt with
      | error e => rw [hm, exceptBindError] at h; exact absurd h (by simp)
      | ok ms =>
        rw [hm, exceptBindOk] at h
        simp only [Except.ok.injEq] at h
        subst h
        exact ⟨rfl, rfl, sd, cd, rfl, rfl, hm⟩

/-- A summary-sheet failure propagates out of `generate_report` unchanged. -/
theorem generate_report_error (config : Config) (rt : String) (b : Bundle) (ts : String)
    (e : PyErr) (h : create_summary_sheet config b rt = .error e) :
    generate_report config rt b ts = .error e := by
  simp only [generate_report]
  rw [h, exceptBindError]

/-- A summary sheet built from successful lookups and metrics. -/
theorem create_summary_sheet_eq (config : Config) (b : Bundle) (rt : String)
    (sd cd : DataFrame) (ms : List (String × Value))
    (hsd : bundleGet b "sales_data" = .ok sd) (hcd : bundleGet b "customer_data" = .ok cd)
    (hm : computeMetrics sd cd rt = .ok ms) :
    create_summary_sheet config b rt
      = .ok ⟨"Summary", config.company_name ++ " - " ++ pyTitle rt ++ " Report Summary", ms⟩ := by
  simp only [create_summary_sheet]
  rw [hsd, exceptBindOk, hcd, exceptBindOk, hm, exceptBindOk]

/-- C7: a daily report over a bundle whose sales dataset has 31 rows with a
revenue column summing to 93000 (product columns present) and whose customer
dataset has 100 rows of which 40 are Premium computes the summary metrics
Total Revenue = "$93,000.00", Total Customers = 100, Premium Customers = 40. -/
theorem c7_daily_scenario (config : Config) (b : Bundle) (sd cd : DataFrame)
    (revCol pa pb pc cat : List Value) (qa qb qc : ℚ)
    (hsd : bundleGet b "sales_data" = .ok sd)
    (hcd : bundleGet b "customer_data" = .ok cd)
    (hrev : dfColumn sd "Total_Revenue" = .ok revCol)
    (hsum : pySum revCol = .ok 93000)
    (hrows : sd.rows.length = 31)
    (hpa : dfColumn sd "Product_A" = .ok pa) (hqa : pySum pa = .ok qa)
    (hpb : dfColumn sd "Product_B" = .ok pb) (hqb : pySum pb = .ok qb)
    (hpc : dfColumn sd "Product_C" = .ok pc) (hqc : pySum pc = .ok qc)
    (hcat : dfColumn cd "Category" = .ok cat)
    (hprem : countEq cat "Premium" = 40)
    (hcust : cd.rows.length = 100) :
    (create_summary_sheet config b "daily").isOk = true ∧
    ("Total Revenue", Value.vStr "$93,000.00")
      ∈ metricsOf (create_summary_sheet config b "daily") ∧
    ("Total Customers", Value.vInt 100)
      ∈ metricsOf (create_summary_sheet config b "daily") ∧
    ("Premium Customers", Value.vInt 40)
      ∈ metricsOf (create_summary_sheet config b "daily") := by
  have hmean : pyMean revCol = .ok (93000 / (revCol.length : ℚ)) := by
    simp only [pyMean]
    rw [hsum, exceptBindOk]
  obtain ⟨t, ht⟩ : ∃ t, idxmaxPairs [("Product_A", qa), ("Product_B", qb), ("Product_C", qc)]
      = Except.ok t := ⟨_, rfl⟩
  have hm : computeMetrics sd cd "daily"
      = .ok [("Total Revenue", .vStr ("$" ++ formatCommaFixed2 93000)),
             ("Average Daily Revenue",
               .vStr ("$" ++ formatCommaFixed2 (93000 / (revCol.length : ℚ)))),
             ("Top Product", .vStr t),
             ("Total Customers", .vInt (cd.rows.length : Int)),
             ("Premium Customers", .vInt (countEq cat "Premium" : Int))] := by
    simp only [computeMetrics]
    rw [if_pos trivial, hrev, exceptBindOk, hsum, exceptBindOk, hmean, exceptBindOk,
        hpa, exceptBindOk, hqa, exceptBindOk, hpb, exceptBindOk, hqb, exceptBindOk,
        hpc, exceptBindOk, hqc, exceptBindOk, ht, exceptBindOk, hcat, exceptBindOk]
  have hcs := create_summary_sheet_eq config b "daily" sd cd _ hsd hcd hm
  have hfmt : "$" ++ formatCommaFixed2 93000 = "$93,000.00" := by decide
  refine ⟨by rw [hcs]; rfl, ?_, ?_, ?_⟩ <;>
    · rw [hcs]
      simp only [metricsOf]
      simp [hfmt, hcust, hprem]

/-- C7 witness: the concrete 31-row/100-row scenario bundle computes the
three claimed metric values. -/
theorem c7_daily_scenario_witness :
    (create_summary_sheet demoConfig bundleDaily31 "daily").isOk = true ∧
    ("Total Revenue", Value.vStr "$93,000.00")
      ∈ metricsOf (create_summary_sheet demoConfig bundleDaily31 "daily") ∧
    ("Total Customers", Value.vInt 100)
      ∈ metricsOf (create_summary_sheet demoConfig bundleDaily31 "daily") ∧
    ("Premium Customers", Value.vInt 40)
      ∈ metricsOf (create_summary_sheet demoConfig bundleDaily31 "daily") :=
  c7_daily_scenario demoConfig bundleDaily31 sales31 customer100
    (List.replicate 31 (Value.vInt 3000)) (List.replicate 31 (Value.vInt 5))
    (List.replicate 31 (Value.vInt 4)) (List.replicate 31 (Value.vInt 3))
    (List.replicate 40 (Value.vStr "Premium") ++ List.replicate 60 (Value.vStr "Standard"))
    (31 * 5) (31 * 4) (31 * 3)
    (by decide) (by decide) (by decide) (by decide) (by decide) (by decide) (by decide)
    (by decide) (by decide) (by decide) (by decide) (by decide) (by decide) (by decide)

/-- C8: a weekly report whose sales dataset's retention column has mean 33/40
(= 0.825) computes the metric Average Retention Rate = "82.5%", the ratio as
a percentage with one decimal place. -/
theorem c8_weekly_retention (config : Config) (b : Bundle) (sd cd : DataFrame)
    (actCol retCol newCol perfCol deptCol : List Value) (qa qn : ℚ) (pvals : List ℚ)
    (bi : Nat) (best : Value)
    (hsd : bundleGet b "sales_data" = .ok sd)
    (hcd : bundleGet b "customer_data" = .ok cd)
    (hact : dfColumn sd "Actual_Sales" = .ok actCol) (hqa : pySum actCol = .ok qa)
    (hret : dfColumn sd "Customer_Retention" = .ok retCol)
    (hmean : pyMean retCol = .ok (33/40))
    (hnew : dfColumn sd "New_Customers" = .ok newCol) (hqn : pySum newCol = .ok qn)
    (hperf : dfColumn cd "Performance_Score" = .ok perfCol)
    (hpv : seriesToRats perfCol = .ok pvals)
    (hbi : idxmaxIndex pvals = .ok bi)
    (hdept : dfColumn cd "Department" = .ok deptCol)
    (hbest : locGet deptCol bi = .ok best) :
    (create_summary_sheet config b "weekly").isOk = true ∧
    ("Average Retention Rate", Value.vStr "82.5%")
      ∈ metricsOf (create_summary_sheet config b "weekly") := by
  have hm : computeMetrics sd cd "weekly"
      = .ok [("Total Sales", .vStr ("$" ++ formatCommaFixed2 qa)),
             ("Average Retention Rate", .vStr (formatPercent1 (33/40))),
             ("Total New Customers", .vRat qn),
             ("Best Department", best)] := by
    simp only [computeMetrics]
    rw [if_neg (by decide), hact, exceptBindOk, hqa, exceptBindOk, hret, exceptBindOk,
        hmean, exceptBindOk, hnew, exceptBindOk, hqn, exceptBindOk, hperf, exceptBindOk,
        hpv, exceptBindOk, hbi, exceptBindOk, hdept, exceptBindOk, hbest, exceptBindOk]
  have hcs := create_summary_sheet_eq config b "weekly" sd cd _ hsd hcd hm
  have hfmt : formatPercent1 (33/40) = "82.5%" := by decide
  refine ⟨by rw [hcs]; rfl, ?_⟩
  rw [hcs]
  simp only [metricsOf]
  simp [hfmt]

/-- C8 witness: the concrete weekly bundle with retention values 4/5 and
17/20 (mean 33/40) computes "82.5%". -/
theorem c8_weekly_retention_witness :
    (create_summary_sheet demoConfig weeklyBundle "weekly").isOk = true ∧
    ("Average Retention Rate", Value.vStr "82.5%")
      ∈ metricsOf (create_summary_sheet demoConfig weeklyBundle "weekly") :=
  c8_weekly_retention demoConfig weeklyBundle weeklySales weeklyCustomer
    [.vInt 100, .vInt 200] [.vRat (4/5), .vRat (17/20)] [.vInt 10, .vInt 20]
    [.vRat (9/10), .vRat (3/5)] [.vStr "Sales", .vStr "Marketing"]
    300 30 [9/10, 3/5] 0 (.vStr "Sales")
    (by decide) (by decide) (by decide) (by decide) (by decide) (by decide)
    (by decide) (by decide) (by decide) (by decide) (by decide) (by decide) (by decide)

/-- Any successful metric computation for a non-"daily" report type yields
exactly the four weekly metric labels. -/
theorem computeMetrics_weekly_labels (sd cd : DataFrame) (rt : String) (hrt : rt ≠ "daily")
    (ms : List (String × Value)) (hm : computeMetrics sd cd rt = .ok ms) :
    ms.map Prod.fst
      = ["Total Sales", "Average Retention Rate", "Total New Customers", "Best Department"] := by
  unfold computeMetrics at hm
  rw [if_neg hrt] at hm
  cases h1 : dfColumn sd "Actual_Sales" with
  | error e => rw [h1, exceptBindError] at hm; exact absurd hm (by simp)
  | ok x1 =>
  rw [h1, exceptBindOk] at hm
  cases h2 : pySum x1 with
  | error e => rw [h2, exceptBindError] at hm; exact absurd hm (by simp)
  | ok x2 =>
  rw [h2, exceptBindOk] at hm
  cases h3 : dfColumn sd "Customer_Retention" with
  | error e => rw [h3, exceptBindError] at hm; exact absurd hm (by simp)
  | ok x3 =>
  rw [h3, exceptBindOk] at hm
  cases h4 : pyMean x3 with
  | error e => rw [h4, exceptBindError] at hm; exact absurd hm (by simp)
  | ok x4 =>
  rw [h4, exceptBindOk] at hm
  cases h5 : dfColumn sd "New_Customers" with
  | error e => rw [h5, exceptBindError] at hm; exact absurd hm (by simp)
  | ok x5 =>
  rw [h5, exceptBindOk] at hm
  cases h6 : pySum x5 with
  | error e => rw [h6, exceptBindError] at hm; exact absurd hm (by simp)
  | ok x6 =>
  rw [h6, exceptBindOk] at hm
  cases h7 : dfColumn cd "Performance_Score" with
  | error e => rw [h7, exceptBindError] at hm; exact absurd hm (by simp)
  | ok x7 =>
  rw [h7, exceptBindOk] at hm
  cases h8 : seriesToRats x7 with
  | error e => rw [h8, exceptBindError] at hm; exact absurd hm (by simp)
  | ok x8 =>
  rw [h8, exceptBindOk] at hm
  cases h9 : idxmaxIndex x8 with
  | error e => rw [h9, exceptBindError] at hm; exact absurd hm (by simp)
  | ok x9 =>
  rw [h9, exceptBindOk] at hm
  cases h10 : dfColumn cd "Department" with
  | error e => rw [h10, exceptBindError] at hm; exact absurd hm (by simp)
  | ok x10 =>
  rw [h10, exceptBindOk] at hm
  cases h11 : locGet x10 x9 with
  | error e => rw [h11, exceptBindError] at hm; exact absurd hm (by simp)
  | ok x11 =>
  rw [h11, exceptBindOk] at hm
  simp only [Except.ok.injEq] at hm
  subst hm
  rfl

/-- Reading a style map after `_apply_data_formatting`: cells of the given
rectangle carry the alternating data style of their row, every other cell is
untouched. -/
theorem getStyle_apply_data_formatting (sr er sc ec : Nat) (m : StyleMap) (p : Nat × Nat) :
    getStyle (apply_data_formatting m sr er sc ec) p =
      if sr ≤ p.1 ∧ p.1 ≤ er ∧ sc ≤ p.2 ∧ p.2 ≤ ec then dataCellStyle p.1 else getStyle m p := by
  simp only [apply_data_formatting]
  rw [getStyle_writeDataRegion]
  simp only [mem_pyRange]
  split_ifs <;> first | rfl | omega

/-- The second bound of an `'A:<letter>1'` subscript is a cell reference when
the letter is alphabetic, a row reference when it is a digit, and invalid
otherwise — never a column-only bound, because the appended row digit is
always there. -/
theorem classifyBound_pair (c : Char) :
    classifyBound [c, '1']
      = if c.isAlpha = true then BoundKind.cellB (colIndexOf [c]) (digitsVal ['1'])
        else if c.isDigit = true then BoundKind.rowB (digitsVal [c, '1'])
        else BoundKind.badB := by
  have hA : ('1' : Char).isAlpha = false := by decide
  have hD : ('1' : Char).isDigit = true := by decide
  by_cases ha : c.isAlpha <;> by_cases hd : c.isDigit <;>
    simp [classifyBound, List.takeWhile_cons, List.dropWhile_cons, ha, hd, hA, hD]

/-- openpyxl rejects every subscript `_apply_header_style` builds from this
repository's call site: `'A:<letter>1'` mixes a column-only bound with a
cell or row bound. -/
theorem headerRange_invalid (c : Char) :
    rangeBoundaries ("A:" ++ String.mk [c] ++ "1") = .error .valueError := by
  have hsplit : splitColon ("A:" ++ String.mk [c] ++ "1").toList = (['A'], some [c, '1']) := rfl
  simp only [rangeBoundaries, hsplit]
  rw [classifyBound_pair]
  by_cases ha : c.isAlpha
  · rw [if_pos ha]; rfl
  · rw [if_neg ha]
    by_cases hd : c.isDigit
    · rw [if_pos hd]; rfl
    · rw [if_neg hd]; rfl

/-- `_apply_header_style` raises `ValueError` on every call this repository
makes (row 1, column range `'A:<letter>'`). -/
theorem apply_header_style_fails (m : StyleMap) (color : String) (c : Char) :
    apply_header_style m color 1 ("A:" ++ String.mk [c]) = .error .valueError := by
  simp only [apply_header_style]
  rw [show ("A:" ++ String.mk [c]) ++ toString (1 : Nat) = "A:" ++ String.mk [c] ++ "1" from rfl]
  rw [headerRange_invalid]

/-- Past twenty-six columns, the alphabet index raises `IndexError`. -/
theorem pyStrIndex_alphabet_gt26 (n : Nat) (h : 26 < n) :
    pyStrIndex "ABCDEFGHIJKLMNOPQRSTUVWXYZ" ((n : Int) - 1) = .error .indexError := by
  simp only [pyStrIndex]
  rw [show (("ABCDEFGHIJKLMNOPQRSTUVWXYZ" : String).length : Int) = 26 from rfl]
  rw [if_neg (by omega), if_neg (by omega)]

/-- Up to twenty-six columns the alphabet index resolves to some letter. -/
theorem pyStrIndex_alphabet_le26 (n : Nat) (h : n ≤ 26) :
    ∃ c, pyStrIndex "ABCDEFGHIJKLMNOPQRSTUVWXYZ" ((n : Int) - 1) = .ok c := by
  simp only [pyStrIndex]
  rw [show (("ABCDEFGHIJKLMNOPQRSTUVWXYZ" : String).length : Int) = 26 from rfl]
  by_cases h0 : n = 0
  · rw [if_neg (by omega), if_pos (by omega)]
    exact ⟨_, rfl⟩
  · rw [if_pos (by omega)]
    exact ⟨_, rfl⟩

/-- `create_data_sheet` raises `ValueError` for every dataset of up to
twenty-six columns: the header-style subscript is always malformed. -/
theorem create_data_sheet_fails_le26 (config : Config) (df : DataFrame) (nm : String)
    (h : df.columns.length ≤ 26) :
    create_data_sheet config df nm = .error .valueError := by
  obtain ⟨c, hc⟩ := pyStrIndex_alphabet_le26 df.columns.length h
  simp only [create_data_sheet]
  rw [hc, exceptBindOk, apply_header_style_fails, exceptBindError]

/-- `create_data_sheet` fails on every input: `ValueError` up to twenty-six
columns, `IndexError` beyond. -/
theorem create_data_sheet_never_ok (config : Config) (df : DataFrame) (nm : String) :
    (create_data_sheet config df nm).isOk = false := by
  by_cases h : df.columns.length ≤ 26
  · rw [create_data_sheet_fails_le26 config df nm h]
    rfl
  · have herr := pyStrIndex_alphabet_gt26 df.columns.length (by omega)
    simp only [create_data_sheet]
    rw [herr, exceptBindError]
    rfl

/-- `generate_report` never succeeds on any bundle: either the summary-sheet
metrics fail first, or the bundle is nonempty and the first data sheet's
header styling raises. -/
theorem generate_report_never_ok (config : Config) (rt : String) (b : Bundle) (ts : String) :
    (generate_report config rt b ts).isOk = false := by
  cases hcs : create_summary_sheet config b rt with
  | error e =>
    rw [generate_report_error config rt b ts e hcs]
    rfl
  | ok s =>
    obtain ⟨-, -, sd, cd, hsd, -, -⟩ := create_summary_sheet_ok config b rt s hcs
    cases b with
    | nil => simp [bundleGet, List.find?] at hsd
    | cons hd tl =>
      rcases hd with ⟨nm0, df0⟩
      have hfail := create_data_sheet_never_ok config df0 (pyTitle (pyReplaceUnderscore nm0))
      simp only [generate_report]
      rw [hcs, exceptBindOk]
      simp only [createDataSheets]
      cases hds : create_data_sheet config df0 (pyTitle (pyReplaceUnderscore nm0)) with
      | error e =>
        rw [exceptBindError, exceptBindError]
        rfl
      | ok ws =>
        rw [hds] at hfail
        exact absurd hfail (by simp [Except.isOk, Except.toBool])

/-- An absent dataset key makes the bundle lookup raise a `KeyError` naming
it. -/
theorem bundleGet_absent (b : Bundle) (name : String) (h : name ∉ b.map Prod.fst) :
    bundleGet b name = .error (.keyError name) := by
  have hf : b.find? (fun p => p.1 = name) = none := by
    rw [List.find?_eq_none]
    intro x hx hpx
    have hx1 : x.1 = name := by simpa using hpx
    exact h (hx1 ▸ List.mem_map_of_mem Prod.fst hx)
  simp [bundleGet, hf]

/-- An absent column makes the pandas column lookup raise a `KeyError`
naming it. -/
theorem dfColumn_absent (df : DataFrame) (name : String) (h : name ∉ df.columns) :
    dfColumn df name = .error (.keyError name) := by
  have hf : df.columns.findIdx? (fun c => c = name) = none := by
    rw [List.findIdx?_eq_none_iff]
    intro x hx
    by_cases hxe : x = name
    · exact absurd (hxe ▸ hx) h
    · simpa using hxe
  simp [dfColumn, hf]

/-- A metric-computation error surfaces unchanged from the summary sheet and
from `generate_report`. -/
theorem summary_and_report_err (config : Config) (b : Bundle) (rt ts : String)
    (sd cd : DataFrame) (e : PyErr)
    (hsd : bundleGet b "sales_data" = .ok sd) (hcd : bundleGet b "customer_data" = .ok cd)
    (hm : computeMetrics sd cd rt = .error e) :
    create_summary_sheet config b rt = .error e ∧ generate_report config rt b ts = .error e := by
  have hcs : create_summary_sheet config b rt = .error e := by
    simp only [create_summary_sheet]
    rw [hsd, exceptBindOk, hcd, exceptBindOk, hm, exceptBindError]
  exact ⟨hcs, generate_report_error config rt b ts e hcs⟩

/-- C1: the claim's success antecedent is unsatisfiable — report generation
never succeeds on any bundle, because the first data sheet's header styling
subscripts the malformed range `'A:<letter>1'` and openpyxl raises
`ValueError`; on the demonstration daily bundle the failure is concrete. -/
theorem c1_header_range_bug :
    generate_report demoConfig "daily" demoBundle "20260101_000000" = .error .valueError ∧
    ∀ (config : Config) (rt : String) (b : Bundle) (ts : String),
      (generate_report config rt b ts).isOk = false := by
  refine ⟨by decide, ?_⟩
  intro config rt b ts
  exact generate_report_never_ok config rt b ts

/-- C2 counterexample: the banding routine, applied to the two-data-row
region it would receive (sheet rows 2 through 3), leaves the second data row
(sheet row 3) unfilled and fills the first (sheet row 2) — the opposite of
the claimed parity. -/
theorem c2_counterexample :
    (getStyle (apply_data_formatting [] 2 3 1 1) (3, 1)).fill = none ∧
    (getStyle (apply_data_formatting [] 2 3 1 1) (2, 1)).fill = some "F2F2F2" := by decide

/-- C2 (amended): the banding routine `_apply_data_formatting` fills the
odd-numbered data rows (even sheet rows 2, 4, ...) of the region it is given
and leaves even-numbered data rows unfilled; in this program it is never
reached during report generation, because the header styling before it
raises `ValueError`. -/
theorem c2_banding (n cols k c : Nat)
    (hk1 : 1 ≤ k) (hkn : k ≤ n) (hc1 : 1 ≤ c) (hcc : c ≤ cols) :
    (getStyle (apply_data_formatting [] 2 (n + 1) 1 cols) (k + 1, c)).fill
      = (if k % 2 = 1 then some "F2F2F2" else none) ∧
    ∀ (config : Config) (df : DataFrame) (nm : String),
      (create_data_sheet config df nm).isOk = false := by
  refine ⟨?_, fun config df nm => create_data_sheet_never_ok config df nm⟩
  rw [getStyle_apply_data_formatting]
  rw [if_pos ⟨by omega, by omega, hc1, hcc⟩]
  simp only [dataCellStyle]
  by_cases hk : k % 2 = 1
  · rw [if_pos (by omega : (k + 1) % 2 = 0), if_pos hk]
  · rw [if_neg (by omega : ¬(k + 1) % 2 = 0), if_neg hk]

/-- C2 witness: the first data row of a two-row region carries the fill, and
the sheet creation that would use this region always fails. -/
theorem c2_banding_witness :
    (getStyle (apply_data_formatting [] 2 3 1 1) (2, 1)).fill = some "F2F2F2" ∧
    (create_data_sheet demoConfig demoSales2 "Sales Data").isOk = false := by
  have h := c2_banding 2 1 1 1 (by decide) (by decide) (by decide) (by decide)
  exact ⟨by simpa using h.1, h.2 demoConfig demoSales2 "Sales Data"⟩

/-- C3: the claimed data-region styling is exactly what
`_apply_data_formatting` computes for any region cell — thin border,
centered, even-sheet-row fill — but the program never applies it: sheet
creation fails with `ValueError` at the preceding header-range subscript, as
the concrete evaluation shows. -/
theorem c3_data_region_bug :
    create_data_sheet demoConfig demoSales "Sales Data" = .error .valueError ∧
    ∀ (sr er sc ec r c : Nat), sr ≤ r → r ≤ er → sc ≤ c → c ≤ ec →
      (getStyle (apply_data_formatting [] sr er sc ec) (r, c)).border = true ∧
      (getStyle (apply_data_formatting [] sr er sc ec) (r, c)).centered = true ∧
      (getStyle (apply_data_formatting [] sr er sc ec) (r, c)).fill
        = (if r % 2 = 0 then some "F2F2F2" else none) := by
  refine ⟨by decide, ?_⟩
  intro sr er sc ec r c h1 h2 h3 h4
  rw [getStyle_apply_data_formatting, if_pos ⟨h1, h2, h3, h4⟩]
  exact ⟨rfl, rfl, rfl⟩

/-- C3 witness: a concrete region cell shows the border and the fill the
routine computes. -/
theorem c3_data_region_witness :
    (getStyle (apply_data_formatting [] 2 3 1 4) (2, 1)).border = true ∧
    (getStyle (apply_data_formatting [] 2 3 1 4) (2, 1)).fill = some "F2F2F2" := by
  have h := c3_data_region_bug.2 2 3 1 4 2 1 (by decide) (by decide) (by decide) (by decide)
  exact ⟨h.1, by rw [h.2.2]; decide⟩

/-- C4 counterexample: a bundle containing a zero-column dataset fails with
`ValueError`, not an `EmptyDatasetError`; the same `ValueError` hits a
bundle with no zero-column dataset at all, and a zero-row dataset's sheet is
not built either. -/
theorem c4_counterexample :
    generate_report demoConfig "daily" bundleWithEmpty "20260101_000000" = .error .valueError ∧
    generate_report demoConfig "daily" demoBundle "20260101_000000" = .error .valueError ∧
    create_data_sheet demoConfig dfHeaderOnly "Header Only" = .error .valueError := by decide

/-- C4 (amended): no `EmptyDatasetError` exists; report generation fails on
every bundle — each data-sheet creation raises `ValueError` at the malformed
header-range subscript for zero to twenty-six columns — so the failure is
independent of any zero-column dataset and happens before any output file is
written, and a zero-row dataset is not accepted either. -/
theorem c4_amended (config : Config) (df : DataFrame) (nm : String) :
    (df.columns.length ≤ 26 → create_data_sheet config df nm = .error .valueError) ∧
    ∀ (rt : String) (b : Bundle) (ts : String), (generate_report config rt b ts).isOk = false :=
  ⟨fun h => create_data_sheet_fails_le26 config df nm h,
   fun rt b ts => generate_report_never_ok config rt b ts⟩

/-- C4 witness: the zero-column dataset's sheet creation raises `ValueError`
and generation on the bundle carrying it never succeeds. -/
theorem c4_amended_witness :
    create_data_sheet demoConfig dfZeroCols "Extra Block" = .error .valueError ∧
    (generate_report demoConfig "daily" bundleWithEmpty "20260101_000000").isOk = false :=
  ⟨(c4_amended demoConfig dfZeroCols "Extra Block").1 (by decide),
   (c4_amended demoConfig dfZeroCols "Extra Block").2 "daily" bundleWithEmpty "20260101_000000"⟩

/-- C6: the width loop's formula is exactly min(50, 2 + max string length,
failures contributing zero) and always lies in [2, 52]; but the program
never assigns any width — sheet creation raises `ValueError` at the
header-range subscript before the width loop, as the concrete evaluation
shows. -/
theorem c6_column_width_bug :
    create_data_sheet demoConfig demoSales2 "Sales Data" = .error .valueError ∧
    ∀ (grid : List (List Value)) (j : Nat),
      columnWidth grid j = min 50 (2 + specColumnMaxLen grid j) ∧
      2 ≤ columnWidth grid j ∧ columnWidth grid j ≤ 52 := by
  refine ⟨by decide, ?_⟩
  intro grid j
  refine ⟨?_, ?_, ?_⟩
  · rw [columnWidth, columnMaxLen_eq_spec]
    omega
  · unfold columnWidth
    omega
  · unfold columnWidth
    omega

/-- C5: for every required dataset and every required column of either
report type's metric computation, absence makes the computation fail with a
`KeyError` naming the missing dataset or column — the spec's
`MissingDataError` — and `generate_report` surfaces that same error to the
caller uncaught.  Each case assumes the lookups evaluated before it succeed,
matching Python's evaluation order, under which the first missing item
raises. -/
theorem c5_missing_data (config : Config) (ts : String) :
    (∀ (b : Bundle) (rt : String), "sales_data" ∉ b.map Prod.fst →
      create_summary_sheet config b rt = .error (.keyError "sales_data") ∧
      generate_report config rt b ts = .error (.keyError "sales_data")) ∧
    (∀ (b : Bundle) (rt : String) (sd : DataFrame), bundleGet b "sales_data" = .ok sd →
      "customer_data" ∉ b.map Prod.fst →
      create_summary_sheet config b rt = .error (.keyError "customer_data") ∧
      generate_report config rt b ts = .error (.keyError "customer_data")) ∧
    (∀ (b : Bundle) (sd cd : DataFrame),
      bundleGet b "sales_data" = .ok sd → bundleGet b "customer_data" = .ok cd →
      "Total_Revenue" ∉ sd.columns →
      create_summary_sheet config b "daily" = .error (.keyError "Total_Revenue") ∧
      generate_report config "daily" b ts = .error (.keyError "Total_Revenue")) ∧
    (∀ (b : Bundle) (sd cd : DataFrame) (revCol : List Value) (q : ℚ),
      bundleGet b "sales_data" = .ok sd → bundleGet b "customer_data" = .ok cd →
      dfColumn sd "Total_Revenue" = .ok revCol → pySum revCol = .ok q →
      "Product_A" ∉ sd.columns →
      create_summary_sheet config b "daily" = .error (.keyError "Product_A") ∧
      generate_report config "daily" b ts = .error (.keyError "Product_A")) ∧
    (∀ (b : Bundle) (sd cd : DataFrame) (revCol pa : List Value) (q qa : ℚ),
      bundleGet b "sales_data" = .ok sd → bundleGet b "customer_data" = .ok cd →
      dfColumn sd "Total_Revenue" = .ok revCol → pySum revCol = .ok q →
      dfColumn sd "Product_A" = .ok pa → pySum pa = .ok qa →
      "Product_B" ∉ sd.columns →
      create_summary_sheet config b "daily" = .error (.keyError "Product_B") ∧
      generate_report config "daily" b ts = .error (.keyError "Product_B")) ∧
    (∀ (b : Bundle) (sd cd : DataFrame) (revCol pa pb : List Value) (q qa qb : ℚ),
      bundleGet b "sales_data" = .ok sd → bundleGet b "customer_data" = .ok cd →
      dfColumn sd "Total_Revenue" = .ok revCol → pySum revCol = .ok q →
      dfColumn sd "Product_A" = .ok pa → pySum pa = .ok qa →
      dfColumn sd "Product_B" = .ok pb → pySum pb = .ok qb →
      "Product_C" ∉ sd.columns →
      create_summary_sheet config b "daily" = .error (.keyError "Product_C") ∧
      generate_report config "daily" b ts = .error (.keyError "Product_C")) ∧
    (∀ (b : Bundle) (sd cd : DataFrame) (revCol pa pb pc : List Value) (q qa qb qc : ℚ),
      bundleGet b "sales_data" = .ok sd → bundleGet b "customer_data" = .ok cd →
      dfColumn sd "Total_Revenue" = .ok revCol → pySum revCol = .ok q →
      dfColumn sd "Product_A" = .ok pa → pySum pa = .ok qa →
      dfColumn sd "Product_B" = .ok pb → pySum pb = .ok qb →
      dfColumn sd "Product_C" = .ok pc → pySum pc = .ok qc →
      "Category" ∉ cd.columns →
      create_summary_sheet config b "daily" = .error (.keyError "Category") ∧
      generate_report config "daily" b ts = .error (.keyError "Category")) ∧
    (∀ (b : Bundle) (sd cd : DataFrame),
      bundleGet b "sales_data" = .ok sd → bundleGet b "customer_data" = .ok cd →
      "Actual_Sales" ∉ sd.columns →
      create_summary_sheet config b "weekly" = .error (.keyError "Actual_Sales") ∧
      generate_report config "weekly" b ts = .error (.keyError "Actual_Sales")) ∧
    (∀ (b : Bundle) (sd cd : DataFrame) (actCol : List Value) (q : ℚ),
      bundleGet b "sales_data" = .ok sd → bundleGet b "customer_data" = .ok cd →
      dfColumn sd "Actual_Sales" = .ok actCol → pySum actCol = .ok q →
      "Customer_Retention" ∉ sd.columns →
      create_summary_sheet config b "weekly" = .error (.keyError "Customer_Retention") ∧
      generate_report config "weekly" b ts = .error (.keyError "Customer_Retention")) ∧
    (∀ (b : Bundle) (sd cd : DataFrame) (actCol retCol : List Value) (q mq : ℚ),
      bundleGet b "sales_data" = .ok sd → bundleGet b "customer_data" = .ok cd →
      dfColumn sd "Actual_Sales" = .ok actCol → pySum actCol = .ok q →
      dfColumn sd "Customer_Retention" = .ok retCol → pyMean retCol = .ok mq →
      "New_Customers" ∉ sd.columns →
      create_summary_sheet config b "weekly" = .error (.keyError "New_Customers") ∧
      generate_report config "weekly" b ts = .error (.keyError "New_Customers")) ∧
    (∀ (b : Bundle) (sd cd : DataFrame) (actCol retCol newCol : List Value) (q mq qn : ℚ),
      bundleGet b "sales_data" = .ok sd → bundleGet b "customer_data" = .ok cd →
      dfColumn sd "Actual_Sales" = .ok actCol → pySum actCol = .ok q →
      dfColumn sd "Customer_Retention" = .ok retCol → pyMean retCol = .ok mq →
      dfColumn sd "New_Customers" = .ok newCol → pySum newCol = .ok qn →
      "Performance_Score" ∉ cd.columns →
      create_summary_sheet config b "weekly" = .error (.keyError "Performance_Score") ∧
      generate_report config "weekly" b ts = .error (.keyError "Performance_Score")) ∧
    (∀ (b : Bundle) (sd cd : DataFrame) (actCol retCol newCol perfCol : List Value)
      (q mq qn : ℚ) (pvals : List ℚ) (bi : Nat),
      bundleGet b "sales_data" = .ok sd → bundleGet b "customer_data" = .ok cd →
      dfColumn sd "Actual_Sales" = .ok actCol → pySum actCol = .ok q →
      dfColumn sd "Customer_Retention" = .ok retCol → pyMean retCol = .ok mq →
      dfColumn sd "New_Customers" = .ok newCol → pySum newCol = .ok qn →
      dfColumn cd "Performance_Score" = .ok perfCol → seriesToRats perfCol = .ok pvals →
      idxmaxIndex pvals = .ok bi →
      "Department" ∉ cd.columns →
      create_summary_sheet config b "weekly" = .error (.keyError "Department") ∧
      generate_report config "weekly" b ts = .error (.keyError "Department")) := by
  refine ⟨?_, ?_, ?_, ?_, ?_, ?_, ?_, ?_, ?_, ?_, ?_, ?_⟩
  · intro b rt h
    have hsd := bundleGet_absent b "sales_data" h
    have hcs : create_summary_sheet config b rt = .error (.keyError "sales_data") := by
      simp only [create_summary_sheet]
      rw [hsd, exceptBindError]
    exact ⟨hcs, generate_report_error config rt b ts _ hcs⟩
  · intro b rt sd hsd h
    have hcd := bundleGet_absent b "customer_data" h
    have hcs : create_summary_sheet config b rt = .error (.keyError "customer_data") := by
      simp only [create_summary_sheet]
      rw [hsd, exceptBindOk, hcd, exceptBindError]
    exact ⟨hcs, generate_report_error config rt b ts _ hcs⟩
  · intro b sd cd hsd hcd h
    refine summary_and_report_err config b "daily" ts sd cd _ hsd hcd ?_
    simp only [computeMetrics]
    rw [if_pos trivial, dfColumn_absent sd "Total_Revenue" h, exceptBindError]
  · intro b sd cd revCol q hsd hcd hrev hsum h
    have hmean : pyMean revCol = .ok (q / (revCol.length : ℚ)) := by
      simp only [pyMean]
      rw [hsum, exceptBindOk]
    refine summary_and_report_err config b "daily" ts sd cd _ hsd hcd ?_
    simp only [computeMetrics]
    rw [if_pos trivial, hrev, exceptBindOk, hsum, exceptBindOk, hmean, exceptBindOk,
        dfColumn_absent sd "Product_A" h, exceptBindError]
  · intro b sd cd revCol pa q qa hsd hcd hrev hsum hpa hqa h
    have hmean : pyMean revCol = .ok (q / (revCol.length : ℚ)) := by
      simp only [pyMean]
      rw [hsum, exceptBindOk]
    refine summary_and_report_err config b "daily" ts sd cd _ hsd hcd ?_
    simp only [computeMetrics]
    rw [if_pos trivial, hrev, exceptBindOk, hsum, exceptBindOk, hmean, exceptBindOk,
        hpa, exceptBindOk, hqa, exceptBindOk,
        dfColumn_absent sd "Product_B" h, exceptBindError]
  · intro b sd cd revCol pa pb q qa qb hsd hcd hrev hsum hpa hqa hpb hqb h
    have hmean : pyMean revCol = .ok (q / (revCol.length : ℚ)) := by
      simp only [pyMean]
      rw [hsum, exceptBindOk]
    refine summary_and_report_err config b "daily" ts sd cd _ hsd hcd ?_
    simp only [computeMetrics]
    rw [if_pos trivial, hrev, exceptBindOk, hsum, exceptBindOk, hmean, exceptBindOk,
        hpa, exceptBindOk, hqa, exceptBindOk, hpb, exceptBindOk, hqb, exceptBindOk,
        dfColumn_absent sd "Product_C" h, exceptBindError]
  · intro b sd cd revCol pa pb pc q qa qb qc hsd hcd hrev hsum hpa hqa hpb hqb hpc hqc h
    have hmean : pyMean revCol = .ok (q / (revCol.length : ℚ)) := by
      simp only [pyMean]
      rw [hsum, exceptBindOk]
    obtain ⟨t, ht⟩ : ∃ t, idxmaxPairs [("Product_A", qa), ("Product_B", qb), ("Product_C", qc)]
        = Except.ok t := ⟨_, rfl⟩
    refine summary_and_report_err config b "daily" ts sd cd _ hsd hcd ?_
    simp only [computeMetrics]
    rw [if_pos trivial, hrev, exceptBindOk, hsum, exceptBindOk, hmean, exceptBindOk,
        hpa, exceptBindOk, hqa, exceptBindOk, hpb, exceptBindOk, hqb, exceptBindOk,
        hpc, exceptBindOk, hqc, exceptBindOk, ht, exceptBindOk,
        dfColumn_absent cd "Category" h, exceptBindError]
  · intro b sd cd hsd hcd h
    refine summary_and_report_err config b "weekly" ts sd cd _ hsd hcd ?_
    simp only [computeMetrics]
    rw [if_neg (by decide), dfColumn_absent sd "Actual_Sales" h, exceptBindError]
  · intro b sd cd actCol q hsd hcd hact hq h
    refine summary_and_report_err config b "weekly" ts sd cd _ hsd hcd ?_
    simp only [computeMetrics]
    rw [if_neg (by decide), hact, exceptBindOk, hq, exceptBindOk,
        dfColumn_absent sd "Customer_Retention" h, exceptBindError]
  · intro b sd cd actCol retCol q mq hsd hcd hact hq hret hmean h
    refine summary_and_report_err config b "weekly" ts sd cd _ hsd hcd ?_
    simp only [computeMetrics]
    rw [if_neg (by decide), hact, exceptBindOk, hq, exceptBindOk, hret, exceptBindOk,
        hmean, exceptBindOk, dfColumn_absent sd "New_Customers" h, exceptBindError]
  · intro b sd cd actCol retCol newCol q mq qn hsd hcd hact hq hret hmean hnew hqn h
    refine summary_and_report_err config b "weekly" ts sd cd _ hsd hcd ?_
    simp only [computeMetrics]
    rw [if_neg (by decide), hact, exceptBindOk, hq, exceptBindOk, hret, exceptBindOk,
        hmean, exceptBindOk, hnew, exceptBindOk, hqn, exceptBindOk,
        dfColumn_absent cd "Performance_Score" h, exceptBindError]
  · intro b sd cd actCol retCol newCol perfCol q mq qn pvals bi hsd hcd hact hq hret hmean
      hnew hqn hperf hpv hbi h
    refine summary_and_report_err config b "weekly" ts sd cd _ hsd hcd ?_
    simp only [computeMetrics]
    rw [if_neg (by decide), hact, exceptBindOk, hq, exceptBindOk, hret, exceptBindOk,
        hmean, exceptBindOk, hnew, exceptBindOk, hqn, exceptBindOk, hperf, exceptBindOk,
        hpv, exceptBindOk, hbi, exceptBindOk,
        dfColumn_absent cd "Department" h, exceptBindError]

/-- C5 witness: concrete bundles missing each kind of requirement — the
sales dataset, the customer dataset, a daily sales column, a daily product
column, a weekly sales column, and a weekly customer column — each fail
naming exactly the missing item, through `generate_report` where shown. -/
theorem c5_missing_data_witness :
    create_summary_sheet demoConfig bundleNoSales "daily" = .error (.keyError "sales_data") ∧
    create_summary_sheet demoConfig bundleOnlySales "daily"
      = .error (.keyError "customer_data") ∧
    generate_report demoConfig "daily" bundleNoRevenue "20260101_000000"
      = .error (.keyError "Total_Revenue") ∧
    generate_report demoConfig "daily" bundleNoProductB "20260101_000000"
      = .error (.keyError "Product_B") ∧
    create_summary_sheet demoConfig bundleNoRetention "weekly"
      = .error (.keyError "Customer_Retention") ∧
    generate_report demoConfig "weekly" bundleNoDept "20260101_000000"
      = .error (.keyError "Department") := by
  have h := c5_missing_data demoConfig "20260101_000000"
  refine ⟨(h.1 bundleNoSales "daily" (by decide)).1,
          (h.2.1 bundleOnlySales "daily" demoSales (by decide) (by decide)).1,
          (h.2.2.1 bundleNoRevenue demoSalesNoRevenue demoCustomer (by decide) (by decide)
            (by decide)).2,
          (h.2.2.2.2.1 bundleNoProductB salesNoProductB demoCustomer [.vInt 3000] [.vInt 5]
            3000 5 (by decide) (by decide) (by decide) (by decide) (by decide) (by decide)
            (by decide)).2,
          (h.2.2.2.2.2.2.2.2.1 bundleNoRetention weeklySalesNoRet weeklyCustomer [.vInt 100]
            100 (by decide) (by decide) (by decide) (by decide) (by decide)).1,
          (h.2.2.2.2.2.2.2.2.2.2.2 bundleNoDept weeklySales weeklyCustomerNoDept
            [.vInt 100, .vInt 200] [.vRat (4/5), .vRat (17/20)] [.vInt 10, .vInt 20]
            [.vRat (9/10)] 300 (33/40) 30 [9/10] 0
            (by decide) (by decide) (by decide) (by decide) (by decide) (by decide)
            (by decide) (by decide) (by decide) (by decide) (by decide) (by decide)).2⟩

/-- C9 counterexample: report generation on the unrecognized type "monthly"
does fail — with the `ValueError` every generation hits at data-sheet header
styling — and therefore never produces the claimed monthly filename. -/
theorem c9_counterexample :
    generate_report demoConfig "monthly" weeklyBundle "20260101_000000"
      = .error .valueError := by decide

/-- C9 (amended): an unrecognized report-type string is not itself rejected:
metric computation silently takes the weekly path (it equals the "weekly"
computation, yielding the weekly metric set), sample generation selects the
weekly-shaped schema, and the summary title embeds the title-cased raw
string; but report generation fails for every report type — recognized or
not — before the output filename is built, so the type string never reaches
a filename. -/
theorem c9_unknown_type (rt : String) (hrt : rt ≠ "daily") (config : Config)
    (sd cd : DataFrame) (b : Bundle) (ts : String) :
    computeMetrics sd cd rt = computeMetrics sd cd "weekly" ∧
    generate_sample_data_columns rt = generate_sample_data_columns "weekly" ∧
    (∀ s, create_summary_sheet config b rt = .ok s →
      s.title = config.company_name ++ " - " ++ pyTitle rt ++ " Report Summary" ∧
      s.metrics.map Prod.fst
        = ["Total Sales", "Average Retention Rate", "Total New Customers", "Best Department"]) ∧
    (generate_report config rt b ts).isOk = false := by
  refine ⟨?_, ?_, ?_, generate_report_never_ok config rt b ts⟩
  · unfold computeMetrics
    rw [if_neg hrt, if_neg (by decide)]
  · unfold generate_sample_data_columns
    rw [if_neg hrt, if_neg (by decide)]
  · intro s hs
    obtain ⟨-, htitle, sd', cd', -, -, hm⟩ := create_summary_sheet_ok config b rt s hs
    exact ⟨htitle, computeMetrics_weekly_labels sd' cd' rt hrt s.metrics hm⟩

/-- C9 witness: the type "monthly" computes weekly metrics over the weekly
bundle, selects the weekly sample schema, titles the summary with "Monthly",
and its report generation does not succeed. -/
theorem c9_unknown_type_witness :
    computeMetrics weeklySales weeklyCustomer "monthly"
      = computeMetrics weeklySales weeklyCustomer "weekly" ∧
    generate_sample_data_columns "monthly" = generate_sample_data_columns "weekly" ∧
    Except.map SummarySheet.title (create_summary_sheet demoConfig weeklyBundle "monthly")
      = .ok "Your Company Name - Monthly Report Summary" ∧
    (generate_report demoConfig "monthly" weeklyBundle "20260101_000000").isOk = false := by
  have h := c9_unknown_type "monthly" (by decide) demoConfig weeklySales weeklyCustomer
    weeklyBundle "20260101_000000"
  refine ⟨h.1, h.2.1, ?_, h.2.2.2⟩
  cases hs : create_summary_sheet demoConfig weeklyBundle "monthly" with
  | error e =>
    have hok : (create_summary_sheet demoConfig weeklyBundle "monthly").isOk = true := by
      decide
    rw [hs] at hok
    exact absurd hok (by simp [Except.isOk, Except.toBool])
  | ok s =>
    have ht := (h.2.2.1 s hs).1
    simp only [Except.map]
    rw [ht]
    decide

/-- C10: the header-letter lookup indexes the alphabet at (column count - 1):
past twenty-six columns it raises `IndexError`, which `create_data_sheet`
surfaces; at zero columns the index -1 silently wraps to the letter 'Z'
instead of signaling an error at the lookup (sheet creation still fails, but
later and for every column count alike, at the malformed range subscript);
and for one to twenty-six columns the lookup succeeds. -/
theorem c10_header_letter (config : Config) (df : DataFrame) (nm : String) :
    (26 < df.columns.length →
      pyStrIndex "ABCDEFGHIJKLMNOPQRSTUVWXYZ" ((df.columns.length : Int) - 1)
        = .error .indexError ∧
      create_data_sheet config df nm = .error .indexError) ∧
    (df.columns.length = 0 →
      pyStrIndex "ABCDEFGHIJKLMNOPQRSTUVWXYZ" ((df.columns.length : Int) - 1) = .ok 'Z' ∧
      create_data_sheet config df nm = .error .valueError) ∧
    (1 ≤ df.columns.length → df.columns.length ≤ 26 →
      (pyStrIndex "ABCDEFGHIJKLMNOPQRSTUVWXYZ" ((df.columns.length : Int) - 1)).isOk
        = true) := by
  refine ⟨?_, ?_, ?_⟩
  · intro h27
    have herr := pyStrIndex_alphabet_gt26 df.columns.length h27
    refine ⟨herr, ?_⟩
    simp only [create_data_sheet]
    rw [herr, exceptBindError]
  · intro h0
    have hz : pyStrIndex "ABCDEFGHIJKLMNOPQRSTUVWXYZ" ((df.columns.length : Int) - 1)
        = .ok 'Z' := by
      rw [h0]
      decide
    exact ⟨hz, create_data_sheet_fails_le26 config df nm (by omega)⟩
  · intro h1 h26
    simp only [pyStrIndex]
    rw [show (("ABCDEFGHIJKLMNOPQRSTUVWXYZ" : String).length : Int) = 26 from rfl]
    rw [if_pos (by omega)]
    rfl

/-- C10 witness: twenty-seven columns raise the index error through sheet
creation; a zero-column dataset's lookup wraps to 'Z' and the sheet then
fails at the range subscript instead. -/
theorem c10_header_letter_witness :
    create_data_sheet demoConfig df27 "Wide" = .error .indexError ∧
    pyStrIndex "ABCDEFGHIJKLMNOPQRSTUVWXYZ" ((0 : Int) - 1) = .ok 'Z' ∧
    create_data_sheet demoConfig dfZeroCols "Extra" = .error .valueError := by
  have hw := (c10_header_letter demoConfig df27 "Wide").1 (by decide)
  have h0 := (c10_header_letter demoConfig dfZeroCols "Extra").2.1 rfl
  exact ⟨hw.2, h0.1, h0.2⟩
